import Mathlib

/-!
# Verification of the model-generation pipeline

A shallow embedding of `src/testing_modelGenerator/modelGenerator.ts` (the
optimizer variant: `optimizePrompt` → `generateImage` → `generate3DModel`).

The program chains three HTTP calls.  We embed it as pure state-passing
functions parameterised by an `Env` that provides the responses the three
endpoints would return.  Side effects are made explicit:

* the filesystem is an association list `path ↦ bytes`, overwritten on write;
* an event trace records every outgoing request and every file write, so
  sequencing claims can be stated about the order of events;
* thrown JavaScript errors become `Except.error`; a `try/catch` block that
  only logs and rethrows is the identity on the error value.
-/

namespace ModelGenerator

/-- The ECMAScript whitespace set used by `String.prototype.trim`:
WhiteSpace (TAB, VT, FF, SP, NBSP, ZWNBSP, Unicode space separators) plus
LineTerminator (LF, CR, LS, PS). -/
def isJsWhitespace (c : Char) : Bool :=
  decide (c.toNat = 32 ∨ c.toNat = 9 ∨ c.toNat = 10 ∨ c.toNat = 13 ∨
    c.toNat = 11 ∨ c.toNat = 12 ∨ c.toNat = 0xA0 ∨ c.toNat = 0x1680 ∨
    (0x2000 ≤ c.toNat ∧ c.toNat ≤ 0x200A) ∨ c.toNat = 0x2028 ∨
    c.toNat = 0x2029 ∨ c.toNat = 0x202F ∨ c.toNat = 0x205F ∨
    c.toNat = 0x3000 ∨ c.toNat = 0xFEFF)

/-- `input.trim()` on the underlying character list. -/
def jsTrimList (l : List Char) : List Char :=
  ((l.dropWhile isJsWhitespace).reverse.dropWhile isJsWhitespace).reverse

/-- JavaScript `String.prototype.trim`. -/
def jsTrim (s : String) : String := ⟨jsTrimList s.data⟩

/-- The character class `[a-zA-Z0-9]` of the sanitizing regex. -/
def isAsciiAlphanum (c : Char) : Bool :=
  decide ((97 ≤ c.toNat ∧ c.toNat ≤ 122) ∨ (65 ≤ c.toNat ∧ c.toNat ≤ 90) ∨
    (48 ≤ c.toNat ∧ c.toNat ≤ 57))

/-- `sanitizeFileName` from the source:
`input.trim().replace(/[^a-zA-Z0-9]/g, '_').substring(0, 20)`. -/
def sanitizeFileName (input : String) : String :=
  ⟨((jsTrimList input.data).map (fun c => if isAsciiAlphanum c then c else '_')).take 20⟩

/-- A thrown JavaScript error value. -/
inductive JsError where
  | jsError (msg : String)
  | typeError (msg : String)
deriving DecidableEq

/-- `message` object of a chat-completion choice. -/
structure ChatMessage where
  content : String
deriving DecidableEq

/-- One element of the `choices` array of the chat-completion response. -/
structure ChatChoice where
  message : ChatMessage
deriving DecidableEq

/-- The chat-completion endpoint's response, as far as the code inspects it:
`status`, `data.choices`, and `data.error.message` (the latter as an
`Option`, `none` standing for an absent/falsy message). -/
structure ChatResponse where
  status : Nat
  choices : List ChatChoice
  errorMessage : Option String
deriving DecidableEq

/-- A binary-body HTTP response (image or 3D endpoint). -/
structure HttpResponse where
  status : Nat
  data : List Nat
deriving DecidableEq

/-- A value appended to a `FormData`: a text field or a file stream. -/
inductive FormValue where
  | text (s : String)
  | fileStream (path : String)
deriving DecidableEq

/-- The environment of one invocation: what each endpoint will answer, and
the prompt-modifier text loaded at startup. -/
structure Env where
  chatResponse : ChatResponse
  imageResponse : HttpResponse
  modelResponse : HttpResponse
  promptModifierImage : String
deriving DecidableEq

/-- Observable events, in program order: outgoing requests and file writes. -/
inductive Event where
  | chatRequest (messages : List (String × String))
  | imageRequest (form : List (String × FormValue))
  | modelRequest (form : List (String × FormValue))
  | fileWrite (path : String) (data : List Nat)
deriving DecidableEq

/-- Mutable world state threaded through the pipeline: the local filesystem
and the trace of events so far. -/
structure St where
  fs : List (String × List Nat)
  trace : List Event
deriving DecidableEq

/-- Record an event. -/
def emit (e : Event) (st : St) : St := { st with trace := st.trace ++ [e] }

/-- `fs.writeFileSync`: overwrite the entry at `p` and record the write.
The newest write is consed in front; `readFs` returns the first match, so
an earlier entry for the same path is shadowed (overwritten). -/
def writeFileSync (p : String) (d : List Nat) (st : St) : St :=
  { fs := (p, d) :: st.fs,
    trace := st.trace ++ [Event.fileWrite p d] }

/-- Read a file back from the modelled filesystem (newest write wins). -/
def readFs (fs : List (String × List Nat)) (p : String) : Option (List Nat) :=
  (fs.find? (fun q => q.1 == p)).map Prod.snd

/-- `Buffer.prototype.toString` as the code uses it on an error body. -/
def bufferToString (l : List Nat) : String := ⟨l.map Char.ofNat⟩

/-- The directory of the running script (`__dirname`), constant within a
deployment. -/
def dirname : String := "/repo/src/testing_modelGenerator"

/-- `path.resolve(__dirname, name)` for the sanitized names the code builds
(no separators or dot-segments, so resolution is plain joining). -/
def pathResolve (name : String) : String := dirname ++ "/" ++ name

/-- The `.png` filename built in `generateImage`:
`` `gen_${sanitizeFileName(prompt)}.png` ``. -/
def imageFileName (prompt : String) : String :=
  "gen_" ++ sanitizeFileName prompt ++ ".png"

/-- The `.glb` filename built in `generate3DModel`:
`` `gen_${sanitizeFileName(prompt)}.glb` ``. -/
def modelFileName (prompt : String) : String :=
  "gen_" ++ sanitizeFileName prompt ++ ".glb"

/-- `optimizePrompt(inputPrompt, modifier)`: posts the two-message chat
request; on status 200 returns `choices[0].message.content.trim()`
(accessing `choices[0]` of an empty array throws a `TypeError`); otherwise
throws `new Error(response.data.error.message || "Unknown error occurred")`.
The surrounding `catch` only logs and rethrows the same error. -/
def optimizePrompt (env : Env) (inputPrompt modifier : String) (st : St) :
    Except JsError String × St :=
  let st1 := emit (Event.chatRequest [("system", modifier), ("user", inputPrompt)]) st
  let response := env.chatResponse
  if response.status = 200 then
    match response.choices with
    | [] =>
      (Except.error (JsError.typeError "Cannot read properties of undefined"), st1)
    | choice :: _ => (Except.ok (jsTrim choice.message.content), st1)
  else
    (Except.error (JsError.jsError
      (match response.errorMessage with
       | some m => if m = "" then "Unknown error occurred" else m
       | none => "Unknown error occurred")), st1)

/-- The `FormData` built in `generateImage` from the payload
`{prompt: optimizedPrompt, output_format: "png"}`. -/
def imageForm (optimizedPrompt : String) : List (String × FormValue) :=
  [("prompt", FormValue.text optimizedPrompt),
   ("output_format", FormValue.text "png")]

/-- The `FormData` built in `generate3DModel`: the image file stream plus
the two fixed fields. -/
def modelForm (inputImagePath : String) : List (String × FormValue) :=
  [("image", FormValue.fileStream inputImagePath),
   ("texture_resolution", FormValue.text "512"),
   ("foreground_ratio", FormValue.text "0.7")]

/-- `generateImage(prompt)`: first awaits `optimizePrompt` (any failure
propagates unchanged), then posts the multipart form
`{prompt: optimizedPrompt, output_format: "png"}`; on status 200 writes the
response bytes to `gen_<sanitized>.png` and returns that path, otherwise
throws; the `catch` only logs and rethrows. -/
def generateImage (env : Env) (prompt : String) (st : St) :
    Except JsError String × St :=
  match optimizePrompt env prompt env.promptModifierImage st with
  | (Except.error e, st1) => (Except.error e, st1)
  | (Except.ok optimizedPrompt, st1) =>
    let st2 := emit (Event.imageRequest (imageForm optimizedPrompt)) st1
    let response := env.imageResponse
    if response.status = 200 then
      let imagePath := pathResolve (imageFileName prompt)
      let st3 := writeFileSync imagePath response.data st2
      (Except.ok imagePath, st3)
    else
      (Except.error (JsError.jsError
        ("Image generation failed: " ++ toString response.status ++ " - " ++
          bufferToString response.data)), st2)

/-- `generate3DModel(prompt)`: awaits `generateImage` (any failure propagates
unchanged), then posts the multipart form
`{image: createReadStream(pngPath), texture_resolution: "512",
foreground_ratio: "0.7"}`; on status 200 writes the response bytes to
`gen_<sanitized>.glb` and returns that path, otherwise throws; the `catch`
only logs and rethrows. -/
def generate3DModel (env : Env) (prompt : String) (st : St) :
    Except JsError String × St :=
  match generateImage env prompt st with
  | (Except.error e, st1) => (Except.error e, st1)
  | (Except.ok inputImagePath, st1) =>
    let st2 := emit (Event.modelRequest (modelForm inputImagePath)) st1
    let response := env.modelResponse
    if response.status = 200 then
      let outputPath := pathResolve (modelFileName prompt)
      let st3 := writeFileSync outputPath response.data st2
      (Except.ok outputPath, st3)
    else
      (Except.error (JsError.jsError
        ("3D model generation failed: " ++ toString response.status ++ " - " ++
          bufferToString response.data)), st2)

/-- Recognizer for chat-completion requests in a trace. -/
def isChatRequest : Event → Bool
  | Event.chatRequest _ => true
  | _ => false

/-- Recognizer for image-endpoint requests in a trace. -/
def isImageRequest : Event → Bool
  | Event.imageRequest _ => true
  | _ => false

/-- Recognizer for 3D-endpoint requests in a trace. -/
def isModelRequest : Event → Bool
  | Event.modelRequest _ => true
  | _ => false

/-- A mocked environment in which all three endpoints succeed. -/
def envAllOk : Env :=
  { chatResponse :=
      { status := 200, choices := [⟨⟨"  an optimized prompt  "⟩⟩],
        errorMessage := none },
    imageResponse := { status := 200, data := [1, 2, 3] },
    modelResponse := { status := 200, data := [4, 5] },
    promptModifierImage := "style modifier text" }

/-- Like `envAllOk` but the 3D endpoint answers 500. -/
def env3dFail : Env :=
  { envAllOk with modelResponse := { status := 500, data := [6] } }

/-- Like `envAllOk` but the image endpoint answers 404. -/
def envImgFail : Env :=
  { envAllOk with imageResponse := { status := 404, data := [7] } }

/-- Like `envAllOk` but the chat endpoint answers 500. -/
def envChatFail : Env :=
  { envAllOk with
      chatResponse := { status := 500, choices := [], errorMessage := none } }

/-- The initial world: empty filesystem, empty trace. -/
def st0 : St := { fs := [], trace := [] }

/-! ## Helper lemmas -/

lemma data_mk (l : List Char) : (String.mk l).data = l := rfl

lemma mk_data (s : String) : String.mk s.data = s := rfl

lemma data_append (a b : String) : (a ++ b).data = a.data ++ b.data := by
  cases a; cases b; rfl

lemma string_append_right_inj {a b c : String} (h : a ++ b = a ++ c) : b = c := by
  cases a; cases b; cases c
  have hd := congrArg String.data h
  rw [data_append, data_append] at hd
  exact congrArg String.mk (List.append_cancel_left hd)

lemma alnum_not_ws {c : Char} (h : isAsciiAlphanum c = true) :
    isJsWhitespace c = false := by
  simp only [isAsciiAlphanum, decide_eq_true_eq] at h
  simp only [isJsWhitespace, decide_eq_false_iff_not]
  omega

lemma dropWhile_eq_self_of {p : Char → Bool} {l : List Char}
    (h : ∀ c ∈ l, p c = false) : l.dropWhile p = l := by
  cases l with
  | nil => rfl
  | cons a t => simp [List.dropWhile_cons, h a (List.mem_cons_self a t)]

lemma jsTrimList_eq_self {l : List Char}
    (h : ∀ c ∈ l, isJsWhitespace c = false) : jsTrimList l = l := by
  unfold jsTrimList
  rw [dropWhile_eq_self_of h, dropWhile_eq_self_of, List.reverse_reverse]
  intro c hc
  exact h c (List.mem_reverse.mp hc)

lemma jsTrimList_nil_of_ws {l : List Char}
    (h : ∀ c ∈ l, isJsWhitespace c = true) : jsTrimList l = [] := by
  unfold jsTrimList
  rw [List.dropWhile_eq_nil_iff.mpr h]
  rfl

lemma map_eq_self_of {f : Char → Char} {l : List Char}
    (h : ∀ c ∈ l, f c = c) : l.map f = l := by
  induction l with
  | nil => rfl
  | cons a t ih =>
    rw [List.map_cons, h a (List.mem_cons_self a t),
      ih (fun c hc => h c (List.mem_cons_of_mem a hc))]

lemma sanitize_chars {s : String} {c : Char}
    (h : c ∈ (sanitizeFileName s).data) : isAsciiAlphanum c = true ∨ c = '_' := by
  simp only [sanitizeFileName, data_mk] at h
  rcases List.mem_map.mp (List.mem_of_mem_take h) with ⟨a, _, rfl⟩
  by_cases ha : isAsciiAlphanum a = true
  · left; simp [ha]
  · right; simp [ha]

lemma sanitize_len (s : String) : (sanitizeFileName s).data.length ≤ 20 := by
  simp only [sanitizeFileName, data_mk, List.length_take]
  omega

lemma image_ne_model_path (prompt : String) :
    pathResolve (imageFileName prompt) ≠ pathResolve (modelFileName prompt) := by
  intro h
  unfold pathResolve imageFileName modelFileName at h
  rw [show dirname ++ "/" ++ ("gen_" ++ sanitizeFileName prompt ++ ".png") =
        (dirname ++ "/") ++ (("gen_" ++ sanitizeFileName prompt) ++ ".png") from rfl,
      show dirname ++ "/" ++ ("gen_" ++ sanitizeFileName prompt ++ ".glb") =
        (dirname ++ "/") ++ (("gen_" ++ sanitizeFileName prompt) ++ ".glb") from rfl] at h
  have h2 := string_append_right_inj (string_append_right_inj h)
  exact absurd h2 (by decide)

/-! ### Run equations for the three stages -/

lemma optimizePrompt_ok (env : Env) (p m : String) (st : St)
    (c : ChatChoice) (rest : List ChatChoice)
    (h200 : env.chatResponse.status = 200)
    (hch : env.chatResponse.choices = c :: rest) :
    optimizePrompt env p m st =
      (Except.ok (jsTrim c.message.content),
       emit (Event.chatRequest [("system", m), ("user", p)]) st) := by
  unfold optimizePrompt
  simp [h200, hch]

lemma optimizePrompt_fail_status (env : Env) (p m : String) (st : St)
    (h : env.chatResponse.status ≠ 200) :
    optimizePrompt env p m st =
      (Except.error (JsError.jsError
        (match env.chatResponse.errorMessage with
         | some msg => if msg = "" then "Unknown error occurred" else msg
         | none => "Unknown error occurred")),
       emit (Event.chatRequest [("system", m), ("user", p)]) st) := by
  unfold optimizePrompt
  simp [h]

lemma optimizePrompt_fail_choices (env : Env) (p m : String) (st : St)
    (h200 : env.chatResponse.status = 200)
    (hch : env.chatResponse.choices = []) :
    optimizePrompt env p m st =
      (Except.error (JsError.typeError "Cannot read properties of undefined"),
       emit (Event.chatRequest [("system", m), ("user", p)]) st) := by
  unfold optimizePrompt
  simp [h200, hch]

lemma optimizePrompt_st (env : Env) (p m : String) (st : St) :
    (optimizePrompt env p m st).2 =
      emit (Event.chatRequest [("system", m), ("user", p)]) st := by
  unfold optimizePrompt
  rcases hch : env.chatResponse.choices with _ | ⟨c, rest⟩ <;>
    by_cases h : env.chatResponse.status = 200 <;> simp [h, hch]

lemma generateImage_fail_opt (env : Env) (prompt : String) (st : St)
    (e : JsError) (st1 : St)
    (h : optimizePrompt env prompt env.promptModifierImage st = (Except.error e, st1)) :
    generateImage env prompt st = (Except.error e, st1) := by
  unfold generateImage
  rw [h]

lemma generateImage_ok (env : Env) (prompt : String) (st : St)
    (c : ChatChoice) (rest : List ChatChoice)
    (h200 : env.chatResponse.status = 200)
    (hch : env.chatResponse.choices = c :: rest)
    (himg : env.imageResponse.status = 200) :
    generateImage env prompt st =
      (Except.ok (pathResolve (imageFileName prompt)),
       writeFileSync (pathResolve (imageFileName prompt)) env.imageResponse.data
         (emit (Event.imageRequest (imageForm (jsTrim c.message.content)))
           (emit (Event.chatRequest
             [("system", env.promptModifierImage), ("user", prompt)]) st))) := by
  unfold generateImage
  rw [optimizePrompt_ok env prompt env.promptModifierImage st c rest h200 hch]
  simp [himg]

lemma generateImage_fail_image (env : Env) (prompt : String) (st : St)
    (c : ChatChoice) (rest : List ChatChoice)
    (h200 : env.chatResponse.status = 200)
    (hch : env.chatResponse.choices = c :: rest)
    (himg : env.imageResponse.status ≠ 200) :
    generateImage env prompt st =
      (Except.error (JsError.jsError
        ("Image generation failed: " ++ toString env.imageResponse.status ++
          " - " ++ bufferToString env.imageResponse.data)),
       emit (Event.imageRequest (imageForm (jsTrim c.message.content)))
         (emit (Event.chatRequest
           [("system", env.promptModifierImage), ("user", prompt)]) st)) := by
  unfold generateImage
  rw [optimizePrompt_ok env prompt env.promptModifierImage st c rest h200 hch]
  simp [himg]

lemma generate3DModel_fail_img (env : Env) (prompt : String) (st : St)
    (e : JsError) (st1 : St)
    (h : generateImage env prompt st = (Except.error e, st1)) :
    generate3DModel env prompt st = (Except.error e, st1) := by
  unfold generate3DModel
  rw [h]

lemma generate3DModel_ok (env : Env) (prompt : String) (st : St)
    (c : ChatChoice) (rest : List ChatChoice)
    (h200 : env.chatResponse.status = 200)
    (hch : env.chatResponse.choices = c :: rest)
    (himg : env.imageResponse.status = 200)
    (h3d : env.modelResponse.status = 200) :
    generate3DModel env prompt st =
      (Except.ok (pathResolve (modelFileName prompt)),
       writeFileSync (pathResolve (modelFileName prompt)) env.modelResponse.data
         (emit (Event.modelRequest (modelForm (pathResolve (imageFileName prompt))))
           (writeFileSync (pathResolve (imageFileName prompt)) env.imageResponse.data
             (emit (Event.imageRequest (imageForm (jsTrim c.message.content)))
               (emit (Event.chatRequest
                 [("system", env.promptModifierImage), ("user", prompt)]) st))))) := by
  unfold generate3DModel
  rw [generateImage_ok env prompt st c rest h200 hch himg]
  simp [h3d]

lemma generate3DModel_fail_model (env : Env) (prompt : String) (st : St)
    (c : ChatChoice) (rest : List ChatChoice)
    (h200 : env.chatResponse.status = 200)
    (hch : env.chatResponse.choices = c :: rest)
    (himg : env.imageResponse.status = 200)
    (h3d : env.modelResponse.status ≠ 200) :
    generate3DModel env prompt st =
      (Except.error (JsError.jsError
        ("3D model generation failed: " ++ toString env.modelResponse.status ++
          " - " ++ bufferToString env.modelResponse.data)),
       emit (Event.modelRequest (modelForm (pathResolve (imageFileName prompt))))
         (writeFileSync (pathResolve (imageFileName prompt)) env.imageResponse.data
           (emit (Event.imageRequest (imageForm (jsTrim c.message.content)))
             (emit (Event.chatRequest
               [("system", env.promptModifierImage), ("user", prompt)]) st)))) := by
  unfold generate3DModel
  rw [generateImage_ok env prompt st c rest h200 hch himg]
  simp [h3d]

/-! ### Filesystem read-back lemmas -/

lemma readFs_emit (e : Event) (st : St) (p : String) :
    readFs ((emit e st).fs) p = readFs st.fs p := rfl

lemma readFs_writeFileSync_self (p : String) (d : List Nat) (st : St) :
    readFs ((writeFileSync p d st).fs) p = some d := by
  simp [readFs, writeFileSync, List.find?_cons]

lemma readFs_writeFileSync_ne (p q : String) (d : List Nat) (st : St)
    (h : p ≠ q) :
    readFs ((writeFileSync q d st).fs) p = readFs st.fs p := by
  simp only [readFs, writeFileSync]
  have hne : ((q, d).1 == p) = false := by
    simp only [beq_eq_false_iff_ne]
    exact Ne.symm h
  rw [List.find?_cons_of_neg _ (by simp [hne])]

/-! ## Claim theorems -/

/-- C9: `sanitizeFileName` is idempotent, its output is at most 20
characters long and consists only of `[a-zA-Z0-9_]`; an all-whitespace (or
empty) prompt yields the empty stem, so the filenames are the fixed
`gen_.png` and `gen_.glb`. -/
theorem c9_sanitize_algebraic :
    (∀ s : String, sanitizeFileName (sanitizeFileName s) = sanitizeFileName s) ∧
    (∀ s : String, (sanitizeFileName s).data.length ≤ 20) ∧
    (∀ s : String, ∀ c ∈ (sanitizeFileName s).data,
        isAsciiAlphanum c = true ∨ c = '_') ∧
    (∀ s : String, (∀ c ∈ s.data, isJsWhitespace c = true) →
        sanitizeFileName s = "" ∧ imageFileName s = "gen_.png" ∧
        modelFileName s = "gen_.glb") := by
  refine ⟨?_, sanitize_len, fun s c hc => sanitize_chars hc, ?_⟩
  · intro s
    have hnws : ∀ c ∈ (sanitizeFileName s).data, isJsWhitespace c = false := by
      intro c hc
      rcases sanitize_chars hc with h | rfl
      · exact alnum_not_ws h
      · decide
    have hfix : ∀ c ∈ (sanitizeFileName s).data,
        (if isAsciiAlphanum c then c else '_') = c := by
      intro c hc
      rcases sanitize_chars hc with h | rfl
      · simp [h]
      · rfl
    show String.mk (((jsTrimList (sanitizeFileName s).data).map
        (fun c => if isAsciiAlphanum c then c else '_')).take 20) = sanitizeFileName s
    rw [jsTrimList_eq_self hnws, map_eq_self_of hfix,
      List.take_of_length_le (sanitize_len s), mk_data]
  · intro s hws
    have h0 : sanitizeFileName s = "" := by
      show String.mk (((jsTrimList s.data).map
          (fun c => if isAsciiAlphanum c then c else '_')).take 20) = ""
      rw [jsTrimList_nil_of_ws hws]
      rfl
    refine ⟨h0, ?_, ?_⟩
    · show "gen_" ++ sanitizeFileName s ++ ".png" = "gen_.png"
      rw [h0]
      decide
    · show "gen_" ++ sanitizeFileName s ++ ".glb" = "gen_.glb"
      rw [h0]
      decide

/-- Witness for C9 at the all-whitespace prompt `"   "`. -/
theorem c9_witness :
    sanitizeFileName "   " = "" ∧ imageFileName "   " = "gen_.png" ∧
    modelFileName "   " = "gen_.glb" :=
  c9_sanitize_algebraic.2.2.2 "   " (by decide)

/-- C5: on a status-200 chat-completion response, `optimizePrompt` returns
exactly the trimmed `content` of the first element of `choices`. -/
theorem c5_optimizer_returns_trimmed_first_choice
    (env : Env) (inputPrompt modifier : String) (st : St)
    (h200 : env.chatResponse.status = 200)
    (c : ChatChoice) (rest : List ChatChoice)
    (hch : env.chatResponse.choices = c :: rest) :
    (optimizePrompt env inputPrompt modifier st).1 =
      Except.ok (jsTrim c.message.content) := by
  rw [optimizePrompt_ok env inputPrompt modifier st c rest h200 hch]

/-- Witness for C5 on a concrete successful chat response. -/
theorem c5_witness :
    (optimizePrompt envAllOk "a red cube" "style modifier text" st0).1 =
      Except.ok (jsTrim "  an optimized prompt  ") :=
  c5_optimizer_returns_trimmed_first_choice envAllOk "a red cube"
    "style modifier text" st0 rfl ⟨⟨"  an optimized prompt  "⟩⟩ [] rfl

/-- C2: if the image endpoint answers with any non-200 status,
`generateImage` rejects and leaves the filesystem untouched (the write
happens only in the status-200 branch). -/
theorem c2_non200_image_rejects_writes_nothing
    (env : Env) (prompt : String) (st : St)
    (h : env.imageResponse.status ≠ 200) :
    (∃ e, (generateImage env prompt st).1 = Except.error e) ∧
    ((generateImage env prompt st).2).fs = st.fs := by
  rcases hop : optimizePrompt env prompt env.promptModifierImage st with ⟨r, st1⟩
  have hst1 : st1 = emit (Event.chatRequest
      [("system", env.promptModifierImage), ("user", prompt)]) st := by
    have h2 := optimizePrompt_st env prompt env.promptModifierImage st
    rw [hop] at h2
    exact h2
  cases r with
  | error e =>
    rw [generateImage_fail_opt env prompt st e st1 hop]
    exact ⟨⟨e, rfl⟩, by rw [hst1]; rfl⟩
  | ok o =>
    have hrun : generateImage env prompt st =
        (Except.error (JsError.jsError
          ("Image generation failed: " ++ toString env.imageResponse.status ++
            " - " ++ bufferToString env.imageResponse.data)),
         emit (Event.imageRequest (imageForm o)) st1) := by
      unfold generateImage
      rw [hop]
      simp [h]
    rw [hrun]
    refine ⟨⟨_, rfl⟩, ?_⟩
    rw [hst1]
    rfl

/-- Witness for C2 with the image endpoint answering 404. -/
theorem c2_witness :
    (∃ e, (generateImage envImgFail "a red cube" st0).1 = Except.error e) ∧
    ((generateImage envImgFail "a red cube" st0).2).fs = st0.fs :=
  c2_non200_image_rejects_writes_nothing envImgFail "a red cube" st0 (by decide)

/-- C4: every stage's `catch` only logs, so the very same error value
propagates unmodified: an `optimizePrompt` failure is returned by
`generateImage` as-is, and a `generateImage` failure is returned by
`generate3DModel` as-is — with the world state of the failing stage also
unchanged (so nothing is retried after the failure). -/
theorem c4_errors_propagate_unmodified (env : Env) (prompt : String) (st : St) :
    (∀ e st1,
      optimizePrompt env prompt env.promptModifierImage st = (Except.error e, st1) →
        generateImage env prompt st = (Except.error e, st1)) ∧
    (∀ e st1, generateImage env prompt st = (Except.error e, st1) →
        generate3DModel env prompt st = (Except.error e, st1)) :=
  ⟨fun e st1 h => generateImage_fail_opt env prompt st e st1 h,
   fun e st1 h => generate3DModel_fail_img env prompt st e st1 h⟩

/-- Witness for C4: a failing chat stage propagates its error value through
`generate3DModel` unchanged. -/
theorem c4_witness :
    generate3DModel envChatFail "x" st0 =
      (Except.error (JsError.jsError "Unknown error occurred"),
       emit (Event.chatRequest
         [("system", "style modifier text"), ("user", "x")]) st0) :=
  (c4_errors_propagate_unmodified envChatFail "x" st0).2 _ _ rfl

lemma generateImage_ok_path (env : Env) (prompt : String) (st : St)
    (p : String) (s : St)
    (h : generateImage env prompt st = (Except.ok p, s)) :
    p = pathResolve (imageFileName prompt) := by
  rcases hop : optimizePrompt env prompt env.promptModifierImage st with ⟨r, st1⟩
  unfold generateImage at h
  rw [hop] at h
  cases r with
  | error e => simp at h
  | ok o =>
    by_cases himg : env.imageResponse.status = 200
    · simp [himg, Prod.ext_iff] at h
      exact h.1.symm
    · simp [himg] at h

lemma generate3DModel_ok_path (env : Env) (prompt : String) (st : St)
    (p : String) (s : St)
    (h : generate3DModel env prompt st = (Except.ok p, s)) :
    p = pathResolve (modelFileName prompt) := by
  rcases hgi : generateImage env prompt st with ⟨r, st1⟩
  unfold generate3DModel at h
  rw [hgi] at h
  cases r with
  | error e => simp at h
  | ok ipath =>
    by_cases h3d : env.modelResponse.status = 200
    · simp [h3d, Prod.ext_iff] at h
      exact h.1.symm
    · simp [h3d] at h

lemma generate3DModel_ok_inv (env : Env) (prompt : String) (st : St)
    (q : String) (u : St)
    (h : generate3DModel env prompt st = (Except.ok q, u)) :
    ∃ c rest, env.chatResponse.status = 200 ∧
      env.chatResponse.choices = c :: rest ∧
      env.imageResponse.status = 200 ∧ env.modelResponse.status = 200 := by
  by_cases h200 : env.chatResponse.status = 200
  · rcases hch : env.chatResponse.choices with _ | ⟨c, rest⟩
    · rw [generate3DModel_fail_img env prompt st _ _
        (generateImage_fail_opt env prompt st _ _
          (optimizePrompt_fail_choices env prompt env.promptModifierImage st
            h200 hch))] at h
      simp at h
    · by_cases himg : env.imageResponse.status = 200
      · by_cases h3d : env.modelResponse.status = 200
        · exact ⟨c, rest, h200, rfl, himg, h3d⟩
        · rw [generate3DModel_fail_model env prompt st c rest h200 hch himg h3d] at h
          simp at h
      · rw [generate3DModel_fail_img env prompt st _ _
          (generateImage_fail_image env prompt st c rest h200 hch himg)] at h
        simp at h
  · rw [generate3DModel_fail_img env prompt st _ _
      (generateImage_fail_opt env prompt st _ _
        (optimizePrompt_fail_status env prompt env.promptModifierImage st h200))] at h
    simp at h

/-- C1: `sanitizeFileName` makes the output filename a deterministic
function of the prompt alone: whenever `generateImage` (respectively
`generate3DModel`) succeeds, the returned path is exactly
`resolve(gen_<sanitizeFileName(prompt)>.png)` (respectively `.glb`),
whatever the endpoint responses were — so two calls with the same prompt
produce the identical file path and overwrite each other's output. -/
theorem c1_output_path_deterministic :
    (∀ env st prompt p s, generateImage env prompt st = (Except.ok p, s) →
        p = pathResolve (imageFileName prompt)) ∧
    (∀ env st prompt p s, generate3DModel env prompt st = (Except.ok p, s) →
        p = pathResolve (modelFileName prompt)) ∧
    (∀ prompt, imageFileName prompt =
        "gen_" ++ sanitizeFileName prompt ++ ".png" ∧
      modelFileName prompt = "gen_" ++ sanitizeFileName prompt ++ ".glb") :=
  ⟨fun env st prompt p s h => generateImage_ok_path env prompt st p s h,
   fun env st prompt p s h => generate3DModel_ok_path env prompt st p s h,
   fun _ => ⟨rfl, rfl⟩⟩

/-- Witness for C1: the concrete paths for the prompt `"a red cube"`. -/
theorem c1_witness :
    "/repo/src/testing_modelGenerator/gen_a_red_cube.png" =
      pathResolve (imageFileName "a red cube") ∧
    "/repo/src/testing_modelGenerator/gen_a_red_cube.glb" =
      pathResolve (modelFileName "a red cube") :=
  ⟨c1_output_path_deterministic.1 envAllOk st0 "a red cube" _ _ rfl,
   c1_output_path_deterministic.2.1 envAllOk st0 "a red cube" _ _ rfl⟩

/-- C3: if the image stage succeeded and the 3D endpoint answers 500,
`generate3DModel` rejects with an error referencing status 500 and the
previously written `.png` is still on disk with its bytes intact. -/
theorem c3_model_500_keeps_png (env : Env) (prompt : String) (st : St)
    (h200 : env.chatResponse.status = 200)
    (c : ChatChoice) (rest : List ChatChoice)
    (hch : env.chatResponse.choices = c :: rest)
    (himg : env.imageResponse.status = 200)
    (h3d : env.modelResponse.status = 500) :
    (generate3DModel env prompt st).1 =
      Except.error (JsError.jsError
        ("3D model generation failed: 500 - " ++
          bufferToString env.modelResponse.data)) ∧
    readFs ((generate3DModel env prompt st).2).fs
      (pathResolve (imageFileName prompt)) = some env.imageResponse.data := by
  have hne : env.modelResponse.status ≠ 200 := by omega
  rw [generate3DModel_fail_model env prompt st c rest h200 hch himg hne]
  constructor
  · rw [h3d]
    rfl
  · rw [readFs_emit, readFs_writeFileSync_self]

/-- Witness for C3: a mocked 500 from the 3D endpoint. -/
theorem c3_witness :
    (generate3DModel env3dFail "a red cube" st0).1 =
      Except.error (JsError.jsError
        ("3D model generation failed: 500 - " ++
          bufferToString env3dFail.modelResponse.data)) ∧
    readFs ((generate3DModel env3dFail "a red cube" st0).2).fs
      (pathResolve (imageFileName "a red cube")) =
      some env3dFail.imageResponse.data :=
  c3_model_500_keeps_png env3dFail "a red cube" st0 rfl
    ⟨⟨"  an optimized prompt  "⟩⟩ [] rfl rfl rfl

/-- C6: when all three endpoints succeed, `generate3DModel` returns the
resolved `.glb` path and both the `.png` (with the image bytes) and the
`.glb` (with the model bytes) are present on disk. -/
theorem c6_end_to_end_success (env : Env) (prompt : String) (st : St)
    (h200 : env.chatResponse.status = 200)
    (c : ChatChoice) (rest : List ChatChoice)
    (hch : env.chatResponse.choices = c :: rest)
    (himg : env.imageResponse.status = 200)
    (h3d : env.modelResponse.status = 200) :
    ∃ stF, generate3DModel env prompt st =
        (Except.ok (pathResolve (modelFileName prompt)), stF) ∧
      readFs stF.fs (pathResolve (imageFileName prompt)) =
        some env.imageResponse.data ∧
      readFs stF.fs (pathResolve (modelFileName prompt)) =
        some env.modelResponse.data := by
  refine ⟨_, generate3DModel_ok env prompt st c rest h200 hch himg h3d, ?_, ?_⟩
  · rw [readFs_writeFileSync_ne _ _ _ _ (image_ne_model_path prompt),
      readFs_emit, readFs_writeFileSync_self]
  · rw [readFs_writeFileSync_self]

/-- Witness for C6 at the prompt `"a red cube"` with all endpoints mocked
to succeed. -/
theorem c6_witness :
    ∃ stF, generate3DModel envAllOk "a red cube" st0 =
        (Except.ok (pathResolve (modelFileName "a red cube")), stF) ∧
      readFs stF.fs (pathResolve (imageFileName "a red cube")) =
        some envAllOk.imageResponse.data ∧
      readFs stF.fs (pathResolve (modelFileName "a red cube")) =
        some envAllOk.modelResponse.data :=
  c6_end_to_end_success envAllOk "a red cube" st0 rfl
    ⟨⟨"  an optimized prompt  "⟩⟩ [] rfl rfl rfl

/-- C7: the request `generate3DModel` sends to the 3D endpoint is a
multipart form of exactly three fields: the generated image as a file
stream under `image`, plus the constants `texture_resolution = "512"` and
`foreground_ratio = "0.7"` (independent of the prompt). -/
theorem c7_model_request_form (env : Env) (prompt : String) (st : St)
    (h200 : env.chatResponse.status = 200)
    (c : ChatChoice) (rest : List ChatChoice)
    (hch : env.chatResponse.choices = c :: rest)
    (himg : env.imageResponse.status = 200) :
    Event.modelRequest
      [("image", FormValue.fileStream (pathResolve (imageFileName prompt))),
       ("texture_resolution", FormValue.text "512"),
       ("foreground_ratio", FormValue.text "0.7")]
      ∈ ((generate3DModel env prompt st).2).trace := by
  by_cases h3d : env.modelResponse.status = 200
  · rw [generate3DModel_ok env prompt st c rest h200 hch himg h3d]
    simp [writeFileSync, emit, modelForm]
  · rw [generate3DModel_fail_model env prompt st c rest h200 hch himg h3d]
    simp [writeFileSync, emit, modelForm]

/-- Witness for C7 on the all-success environment. -/
theorem c7_witness :
    Event.modelRequest
      [("image", FormValue.fileStream (pathResolve (imageFileName "a red cube"))),
       ("texture_resolution", FormValue.text "512"),
       ("foreground_ratio", FormValue.text "0.7")]
      ∈ ((generate3DModel envAllOk "a red cube" st0).2).trace :=
  c7_model_request_form envAllOk "a red cube" st0 rfl
    ⟨⟨"  an optimized prompt  "⟩⟩ [] rfl rfl

/-- C10: on success the returned `.glb` path and the written `.png` path
are both derived from the original user prompt (not from the optimized
prompt the chat stage produced): they share the stem
`gen_<sanitizeFileName(prompt)>` and differ only in the extension. -/
theorem c10_filenames_from_original_prompt (env : Env) (prompt : String)
    (st : St) (q : String) (u : St)
    (h : generate3DModel env prompt st = (Except.ok q, u)) :
    q = pathResolve ("gen_" ++ sanitizeFileName prompt ++ ".glb") ∧
    readFs u.fs (pathResolve ("gen_" ++ sanitizeFileName prompt ++ ".png")) =
      some env.imageResponse.data := by
  obtain ⟨c, rest, h200, hch, himg, h3d⟩ :=
    generate3DModel_ok_inv env prompt st q u h
  rw [generate3DModel_ok env prompt st c rest h200 hch himg h3d] at h
  rw [Prod.mk.injEq] at h
  obtain ⟨h1, h2⟩ := h
  rw [Except.ok.injEq] at h1
  constructor
  · exact h1.symm
  · rw [← h2]
    show readFs ((writeFileSync (pathResolve (modelFileName prompt)) _ _).fs)
      (pathResolve (imageFileName prompt)) = _
    rw [readFs_writeFileSync_ne _ _ _ _ (image_ne_model_path prompt),
      readFs_emit, readFs_writeFileSync_self]

/-- Witness for C10 on the all-success environment. -/
theorem c10_witness :
    "/repo/src/testing_modelGenerator/gen_a_red_cube.glb" =
      pathResolve ("gen_" ++ sanitizeFileName "a red cube" ++ ".glb") ∧
    readFs ((generate3DModel envAllOk "a red cube" st0).2).fs
      (pathResolve ("gen_" ++ sanitizeFileName "a red cube" ++ ".png")) =
      some envAllOk.imageResponse.data :=
  c10_filenames_from_original_prompt envAllOk "a red cube" st0 _ _ rfl

/-- C8: execution is strictly sequential within one invocation.  A request
to the 3D endpoint appears in the trace only if the chat and image stages
both succeeded, and the `.png` file write occurs at an earlier trace
position than the 3D request; a request to the image endpoint appears only
if the chat stage succeeded; and each kind of request is issued at most
once (no stage is re-entered or retried). -/
theorem c8_strict_sequencing (env : Env) (prompt : String) (st : St)
    (hst : st.trace = []) :
    ((∃ f, Event.modelRequest f ∈ ((generate3DModel env prompt st).2).trace) →
      env.chatResponse.status = 200 ∧ env.chatResponse.choices ≠ [] ∧
      env.imageResponse.status = 200 ∧
      ∃ i j : Nat, i < j ∧
        ((generate3DModel env prompt st).2).trace.get? i =
          some (Event.fileWrite (pathResolve (imageFileName prompt))
            env.imageResponse.data) ∧
        (∃ f, ((generate3DModel env prompt st).2).trace.get? j =
          some (Event.modelRequest f))) ∧
    ((∃ f, Event.imageRequest f ∈ ((generate3DModel env prompt st).2).trace) →
      env.chatResponse.status = 200 ∧ env.chatResponse.choices ≠ []) ∧
    ((generate3DModel env prompt st).2).trace.countP isChatRequest ≤ 1 ∧
    ((generate3DModel env prompt st).2).trace.countP isImageRequest ≤ 1 ∧
    ((generate3DModel env prompt st).2).trace.countP isModelRequest ≤ 1 := by
  by_cases h200 : env.chatResponse.status = 200
  · rcases hch : env.chatResponse.choices with _ | ⟨c, rest⟩
    · have htr : ((generate3DModel env prompt st).2).trace =
          [Event.chatRequest
            [("system", env.promptModifierImage), ("user", prompt)]] := by
        rw [generate3DModel_fail_img env prompt st _ _
          (generateImage_fail_opt env prompt st _ _
            (optimizePrompt_fail_choices env prompt env.promptModifierImage st
              h200 hch))]
        simp [emit, hst]
      rw [htr]
      refine ⟨?_, ?_, ?_, ?_, ?_⟩
      · rintro ⟨f, hf⟩
        simp at hf
      · rintro ⟨f, hf⟩
        simp at hf
      · simp [List.countP_cons, List.countP_nil, isChatRequest]
      · simp [List.countP_cons, List.countP_nil, isImageRequest]
      · simp [List.countP_cons, List.countP_nil, isModelRequest]
    · rw [← hch]
      by_cases himg : env.imageResponse.status = 200
      · have key : ∀ u : St, ((generate3DModel env prompt st).2).trace =
            Event.chatRequest
              [("system", env.promptModifierImage), ("user", prompt)] ::
            Event.imageRequest (imageForm (jsTrim c.message.content)) ::
            Event.fileWrite (pathResolve (imageFileName prompt))
              env.imageResponse.data ::
            Event.modelRequest
              (modelForm (pathResolve (imageFileName prompt))) :: u.trace →
            u.trace.countP isChatRequest = 0 →
            u.trace.countP isImageRequest = 0 →
            u.trace.countP isModelRequest = 0 →
            ((∃ f, Event.modelRequest f ∈
                ((generate3DModel env prompt st).2).trace) →
              env.chatResponse.status = 200 ∧ env.chatResponse.choices ≠ [] ∧
              env.imageResponse.status = 200 ∧
              ∃ i j : Nat, i < j ∧
                ((generate3DModel env prompt st).2).trace.get? i =
                  some (Event.fileWrite (pathResolve (imageFileName prompt))
                    env.imageResponse.data) ∧
                (∃ f, ((generate3DModel env prompt st).2).trace.get? j =
                  some (Event.modelRequest f))) ∧
            ((∃ f, Event.imageRequest f ∈
                ((generate3DModel env prompt st).2).trace) →
              env.chatResponse.status = 200 ∧
              env.chatResponse.choices ≠ []) ∧
            ((generate3DModel env prompt st).2).trace.countP isChatRequest ≤ 1 ∧
            ((generate3DModel env prompt st).2).trace.countP isImageRequest ≤ 1 ∧
            ((generate3DModel env prompt st).2).trace.countP
              isModelRequest ≤ 1 := by
          intro u htr hc0 hi0 hm0
          rw [htr]
          refine ⟨fun _ => ⟨h200, by simp [hch], himg, 2, 3, by omega,
            rfl, ⟨modelForm (pathResolve (imageFileName prompt)), rfl⟩⟩,
            fun _ => ⟨h200, by simp [hch]⟩, ?_, ?_, ?_⟩
          · simp [List.countP_cons, isChatRequest, hc0]
          · simp [List.countP_cons, isImageRequest, hi0]
          · simp [List.countP_cons, isModelRequest, hm0]
        by_cases h3d : env.modelResponse.status = 200
        · refine key (writeFileSync (pathResolve (modelFileName prompt))
            env.modelResponse.data st0) ?_ rfl rfl rfl
          rw [generate3DModel_ok env prompt st c rest h200 hch himg h3d]
          simp [writeFileSync, emit, hst, st0]
        · refine key st0 ?_ rfl rfl rfl
          rw [generate3DModel_fail_model env prompt st c rest h200 hch himg h3d]
          simp [writeFileSync, emit, hst, st0]
      · have htr : ((generate3DModel env prompt st).2).trace =
            [Event.chatRequest
              [("system", env.promptModifierImage), ("user", prompt)],
             Event.imageRequest (imageForm (jsTrim c.message.content))] := by
          rw [generate3DModel_fail_img env prompt st _ _
            (generateImage_fail_image env prompt st c rest h200 hch himg)]
          simp [emit, hst]
        rw [htr]
        refine ⟨?_, fun _ => ⟨h200, by simp [hch]⟩, ?_, ?_, ?_⟩
        · rintro ⟨f, hf⟩
          simp at hf
        · simp [List.countP_cons, List.countP_nil, isChatRequest]
        · simp [List.countP_cons, List.countP_nil, isImageRequest]
        · simp [List.countP_cons, List.countP_nil, isModelRequest]
  · have htr : ((generate3DModel env prompt st).2).trace =
        [Event.chatRequest
          [("system", env.promptModifierImage), ("user", prompt)]] := by
      rw [generate3DModel_fail_img env prompt st _ _
        (generateImage_fail_opt env prompt st _ _
          (optimizePrompt_fail_status env prompt env.promptModifierImage st
            h200))]
      simp [emit, hst]
    rw [htr]
    refine ⟨?_, ?_, ?_, ?_, ?_⟩
    · rintro ⟨f, hf⟩
      simp at hf
    · rintro ⟨f, hf⟩
      simp at hf
    · simp [List.countP_cons, List.countP_nil, isChatRequest]
    · simp [List.countP_cons, List.countP_nil, isImageRequest]
    · simp [List.countP_cons, List.countP_nil, isModelRequest]

/-- Witness for C8: on the all-success environment the 3D request is in the
trace, and the theorem places the `.png` write strictly before it. -/
theorem c8_witness :
    envAllOk.chatResponse.status = 200 ∧ envAllOk.chatResponse.choices ≠ [] ∧
    envAllOk.imageResponse.status = 200 ∧
    ∃ i j : Nat, i < j ∧
      ((generate3DModel envAllOk "a red cube" st0).2).trace.get? i =
        some (Event.fileWrite (pathResolve (imageFileName "a red cube"))
          envAllOk.imageResponse.data) ∧
      (∃ f, ((generate3DModel envAllOk "a red cube" st0).2).trace.get? j =
        some (Event.modelRequest f)) :=
  (c8_strict_sequencing envAllOk "a red cube" st0 rfl).1
    ⟨modelForm (pathResolve (imageFileName "a red cube")), by decide⟩

end ModelGenerator
